import Mathlib

/-! imgservice: deposit-reuse clustering, block polling and the test writer

A shallow embedding of

* `clustering/depositreuse/deposit_reuse.go` (`Run`, `clustering`, `createCluster`,
  `includeDepositToCluster`, `includeSenderToCluster`, `getSenderAndDeposit`,
  `getExchangeTransfers`),
* `cmd/main.go` (`collectData`, `batchBlocksSize`),
* `test/writer/writer.go` (`Writer.executeOne`).

The `database`, `di` and `geth` packages are not part of the sources at hand, so the
database handle, the dependency container and the chain node are parameters of the
embedding.  Every call made on the database handle is appended to a call log, which
lets the theorems speak about which store calls were issued and with which arguments.
-/

namespace ImgService

/-! ## Errors and results -/

/-- A Go `error` value: either an opaque error with its text, or an error built by
`fmt.Errorf` with a `%w` verb, which keeps the wrapped error. -/
inductive Error where
  | base (text : String)
  | wrap (text : String) (inner : Error)
  deriving DecidableEq, Repr

/-- The `Error()` text of an error. -/
def Error.text : Error → String
  | .base t => t
  | .wrap t _ => t

/-- The `errors.Unwrap` of an error. -/
def Error.Unwrap : Error → Option Error
  | .base _ => none
  | .wrap _ e => some e

/-- The error `fmt.Errorf(pre + "%w", e)`: the text is the formatted message, the
wrapped error is `e`. -/
def Errorf (pre : String) (e : Error) : Error :=
  .wrap (pre ++ e.text) e

/-- How a Go call ends: it returns a value with a nil error, it returns a non-nil
error, or it panics (nil pointer dereference). -/
inductive Res (α : Type) where
  | ok (a : α)
  | err (e : Error)
  | panicked
  deriving DecidableEq, Repr

/-! ## The database handle -/

/-- The `database.Account` fields the heuristic reads: the address and the optional
cluster id (`Cluster *uint64`, nil when the account is not clustered). -/
structure Account where
  Address : String
  Cluster : Option Nat
  deriving DecidableEq, Repr

/-- The `database.Transaction` fields the heuristic reads. -/
structure Transaction where
  FromAddress : String
  ToAddress : String
  deriving DecidableEq, Repr

/-- One call issued on the database handle. `τ` is the type of exchange transfers. -/
inductive Call (τ : Type) where
  | GetTxsToExchange
  | GetExchangeTransfer (maxBlockDiff : Nat) (ratio : ℚ)
  | GetTransferTxs (transfer : τ)
  | GetSenderAndReceiver (sender receiver : String)
  | UpdateCluster (sender deposit : Account)
  | GetDepositSenders (deposit sender : String)
  | GetDepositsByAddresses (addresses : List String) (deposit : String)
  | CreateCluster
  | UpdateClusterByAddress (id : Nat) (addresses : List String)
  deriving DecidableEq, Repr

/-- The store together with the log of the calls issued so far. -/
structure World (σ τ : Type) where
  store : σ
  calls : List (Call τ)

/-- Append one call to the log. -/
def World.record {σ τ : Type} (w : World σ τ) (c : Call τ) : World σ τ :=
  { w with calls := w.calls ++ [c] }

/-- The methods of `*database.Database` used by the heuristic, over a store of type
`σ`. The package is not among the sources; its methods are parameters. The `Get...`
methods are lookups: they read the store and return a value or an error.
`CreateCluster` and `UpdateClusterByAddress` return the store they leave behind, also
when they fail. `X` is `database.Transactions`, `Y` the result type of
`GetTxsToExchange`, `τ` is `database.ExchangeTransfer`. -/
structure Database (σ τ X Y : Type) where
  GetTxsToExchange : σ → X → Except Error Y
  GetExchangeTransfer : σ → Y → Nat → ℚ → Except Error (List τ)
  GetTransferTxs : σ → τ → Except Error (Transaction × Transaction)
  GetSenderAndReceiver : σ → String → String → Except Error (Account × Account)
  GetDepositSenders : σ → String → String → Except Error (List String)
  GetDepositsByAddresses : σ → List String → String → Except Error (List String)
  CreateCluster : σ → Except Error Nat × σ
  UpdateClusterByAddress : σ → Nat → List String → Except Error Unit × σ

/-- A cluster handler as `db.UpdateCluster` receives it:
`func(ctx, db, sender, deposit) error`. -/
abbrev Handler (σ τ X Y : Type) : Type :=
  Database σ τ X Y → Account → Account → World σ τ → Res Unit × World σ τ

/-- What `di.FromContext(ctx).Invoke` hands to its callback: the database handle and
its `UpdateCluster` method, which is given the three handlers
(`includeDepositToCluster`, `includeSenderToCluster`, `createCluster`, in this order)
and decides which of them to run. -/
structure Provided (σ τ X Y : Type) where
  db : Database σ τ X Y
  UpdateCluster : Account → Account → Handler σ τ X Y → Handler σ τ X Y →
    Handler σ τ X Y → World σ τ → Res Unit × World σ τ

/-- The dependency container of the context: it resolves the database handle or
fails with an error. -/
abbrev Container (σ τ X Y : Type) : Type := Except Error (Provided σ τ X Y)

/-- The method `Invoke` of the container: run the callback on the resolved handle,
or return the resolution error. -/
def Invoke {σ τ X Y α : Type} (c : Container σ τ X Y)
    (f : Provided σ τ X Y → World σ τ → Res α × World σ τ) (w : World σ τ) :
    Res α × World σ τ :=
  match c with
  | .error e => (.err e, w)
  | .ok p => f p w

/-- A Go `error` result as a `Res Unit`. -/
def Res.ofExcept {α : Type} : Except Error α → Res α
  | .ok a => .ok a
  | .error e => .err e

/-! ## `deposit_reuse.go` -/

section DepositReuse

variable {σ τ X Y : Type}

/-- The handler `createCluster` of `deposit_reuse.go`. -/
def createCluster (db : Database σ τ X Y) (sender deposit : Account) (w : World σ τ) :
    Res Unit × World σ τ :=
  let w1 := w.record (.GetDepositSenders deposit.Address sender.Address)
  match db.GetDepositSenders w.store deposit.Address sender.Address with
  | .error innerErr => (.err innerErr, w1)
  | .ok senders =>
    if senders.length = 0 then (.ok (), w1)
    else
      let w2 := w1.record (.GetDepositsByAddresses senders deposit.Address)
      match db.GetDepositsByAddresses w.store senders deposit.Address with
      | .error innerErr => (.err innerErr, w2)
      | .ok deposits =>
        match db.CreateCluster w.store with
        | (.error innerErr, s3) => (.err innerErr, { store := s3, calls := w2.calls ++ [.CreateCluster] })
        | (.ok id, s3) =>
          let accountsToUpdate := [sender.Address, deposit.Address] ++ deposits
          let r := db.UpdateClusterByAddress s3 id (accountsToUpdate ++ senders)
          (Res.ofExcept r.1,
            { store := r.2,
              calls := w2.calls ++ [.CreateCluster,
                .UpdateClusterByAddress id (accountsToUpdate ++ senders)] })

/-- The handler `includeDepositToCluster` of `deposit_reuse.go`. The dereference
`*sender.Cluster` panics when the sender has no cluster. -/
def includeDepositToCluster (db : Database σ τ X Y) (sender deposit : Account)
    (w : World σ τ) : Res Unit × World σ τ :=
  let w1 := w.record (.GetDepositSenders deposit.Address sender.Address)
  match db.GetDepositSenders w.store deposit.Address sender.Address with
  | .error innerErr => (.err innerErr, w1)
  | .ok senders =>
    match sender.Cluster with
    | none => (.panicked, w1)
    | some id =>
      let r := db.UpdateClusterByAddress w.store id (senders ++ [deposit.Address])
      (Res.ofExcept r.1,
        { store := r.2,
          calls := w1.calls ++ [.UpdateClusterByAddress id (senders ++ [deposit.Address])] })

/-- The handler `includeSenderToCluster` of `deposit_reuse.go`. The dereference
`*deposit.Cluster` panics when the deposit has no cluster. -/
def includeSenderToCluster (db : Database σ τ X Y) (sender deposit : Account)
    (w : World σ τ) : Res Unit × World σ τ :=
  let w1 := w.record (.GetDepositsByAddresses [sender.Address] deposit.Address)
  match db.GetDepositsByAddresses w.store [sender.Address] deposit.Address with
  | .error innerErr => (.err innerErr, w1)
  | .ok deposits =>
    match deposit.Cluster with
    | none => (.panicked, w1)
    | some id =>
      let r := db.UpdateClusterByAddress w.store id (deposits ++ [sender.Address])
      (Res.ofExcept r.1,
        { store := r.2,
          calls := w1.calls ++ [.UpdateClusterByAddress id (deposits ++ [sender.Address])] })

/-- The function `getSenderAndDeposit` of `deposit_reuse.go`. -/
def getSenderAndDeposit (db : Database σ τ X Y) (transfer : τ) (w : World σ τ) :
    Res (Account × Account) × World σ τ :=
  let w1 := w.record (.GetTransferTxs transfer)
  match db.GetTransferTxs w.store transfer with
  | .error innerErr => (.err innerErr, w1)
  | .ok (txToDeposit, _) =>
    (Res.ofExcept (db.GetSenderAndReceiver w.store txToDeposit.FromAddress txToDeposit.ToAddress),
      w1.record (.GetSenderAndReceiver txToDeposit.FromAddress txToDeposit.ToAddress))

/-- The function `clustering` of `deposit_reuse.go`. `render` is the `%v` rendering
of the transfer in the error message. -/
def clustering (c : Container σ τ X Y) (render : τ → String) (transfer : τ)
    (w : World σ τ) : Res Unit × World σ τ :=
  Invoke c (fun p w =>
    match getSenderAndDeposit p.db transfer w with
    | (.err innerErr, w1) =>
      (.err (Errorf ("can't get sender and deposit accounts " ++ render transfer ++ ": ") innerErr), w1)
    | (.panicked, w1) => (.panicked, w1)
    | (.ok (sender, deposit), w1) =>
      match p.UpdateCluster sender deposit includeDepositToCluster includeSenderToCluster
          createCluster (w1.record (.UpdateCluster sender deposit)) with
      | (.err innerErr, w2) => (.err (Errorf "can't update cluster: " innerErr), w2)
      | (.panicked, w2) => (.panicked, w2)
      | (.ok u, w2) => (.ok u, w2)) w

end DepositReuse

/-! ## `cmd/main.go`: the polling loop -/

/-- The constant `batchBlocksSize` of `main.go`. -/
def batchBlocksSize : Nat := 10

/-- The number of `uint64` values. -/
def uint64Size : Nat := 2 ^ 64

/-- Subtraction of two `uint64` values, as Go computes it (modulo `2 ^ 64`). -/
def uint64Sub (a b : Nat) : Nat := (a + uint64Size - b) % uint64Size

/-- Addition of two `uint64` values, as Go computes it (modulo `2 ^ 64`). -/
def uint64Add (a b : Nat) : Nat := (a + b) % uint64Size

/-- A buffered Go channel: the buffered values, oldest first, and the capacity given
to `make` (1000 in `loadData`). No receiver is modelled as waiting on the channel, so
a send goes through without waiting exactly if the buffer has room. -/
structure Chan (β : Type) where
  buf : List β
  cap : Nat

/-- Whether a send on the channel would have to wait. -/
def Chan.full {β : Type} (ch : Chan β) : Bool := decide (ch.cap ≤ ch.buf.length)

/-- A receive on the channel by the consumer: the oldest value leaves the buffer. -/
def Chan.recv {β : Type} (ch : Chan β) : Chan β := { ch with buf := ch.buf.tail }

/-- What one iteration of the loop of `collectData` does to the outside. -/
inductive Event (β : Type) where
  | GetLastBlock
  | DownloadData (fromBlock toBlock : Nat)
  | Save (blocks : β)
  | Send (blocks : β)
  | LogError (text : String)
  deriving DecidableEq, Repr

/-- What one iteration of the loop of `collectData` observes. `ctxDone` says that
the first `select` took `<-ctx.Done()`. `GetLastBlock` is the result of the `Invoke`
call: the outer error is a worker that cannot be resolved, the pair is what
`w.GetLastBlock(ctx)` returned. `DownloadData` is `geth.DownloadData`, `Save` is
`blocks.Save`. `β` is `*database.NewBlocks`. -/
structure Env (β : Type) where
  ctxDone : Bool
  GetLastBlock : Except Error (Nat × Option Error)
  DownloadData : Nat → Nat → Except Error β
  Save : β → Option Error

/-- The variables of `collectData` and the effects it had so far. -/
structure Poll (β : Type) where
  fromBlock : Nat
  ethLastBlock : Nat
  notifyChan : Chan β
  events : List (Event β)

/-- Append effects to the record. -/
def Poll.emit {β : Type} (s : Poll β) (es : List (Event β)) : Poll β :=
  { s with events := s.events ++ es }

/-- How one iteration of the loop ends: `collectData` has returned, or the loop goes
on to its next iteration. -/
inductive Step (β : Type) where
  | returned (s : Poll β)
  | running (s : Poll β)

/-- One iteration of the `for` loop of `collectData`. -/
def cycle {β : Type} (env : Env β) (s : Poll β) : Step β :=
  if env.ctxDone then .returned s
  else
    match env.GetLastBlock with
    | .error err => .returned (s.emit [.LogError err.text])
    | .ok (last, some err) =>
      .returned ({ s with ethLastBlock := last }.emit [.GetLastBlock, .LogError err.text])
    | .ok (last, none) =>
      let s1 := { s with ethLastBlock := last }.emit [.GetLastBlock]
      if uint64Sub s1.ethLastBlock s1.fromBlock < batchBlocksSize then .running s1
      else
        let s2 := s1.emit [.DownloadData s1.fromBlock s1.ethLastBlock]
        match env.DownloadData s1.fromBlock s1.ethLastBlock with
        | .error err => .returned (s2.emit [.LogError err.text])
        | .ok blocks =>
          let s3 := s2.emit [.Save blocks]
          match env.Save blocks with
          | some err => .returned (s3.emit [.LogError err.text])
          | none =>
            if s3.notifyChan.full then
              .running (s3.emit [.LogError "can't send newBlocks to clustering"])
            else
              .running
                { s3 with
                  notifyChan := { s3.notifyChan with buf := s3.notifyChan.buf ++ [blocks] }
                  fromBlock := uint64Add s3.fromBlock batchBlocksSize
                  events := s3.events ++ [.Send blocks] }

/-- The function `collectData`, run for as many ticks as the list has entries. Each
entry says how many batches the consumer took off the channel since the previous
iteration, and what the iteration observes. -/
def collectData {β : Type} : List (Nat × Env β) → Poll β → Step β
  | [], s => .running s
  | (n, env) :: rest, s =>
    match cycle env { s with notifyChan := Chan.recv^[n] s.notifyChan } with
    | .returned s1 => .returned s1
    | .running s1 => collectData rest s1

/-- The `DownloadData` calls among the effects, as pairs of arguments. -/
def downloads {β : Type} : List (Event β) → List (Nat × Nat)
  | [] => []
  | .DownloadData f t :: es => (f, t) :: downloads es
  | _ :: es => downloads es

/-! ## `test/writer/writer.go` -/

/-- The function `rand.Intn` of Go's `math/rand`: it panics (`none`) if `n <= 0`, and
otherwise returns a number in `[0, n)`, here the draw `r` reduced modulo `n`. -/
def Intn (r : Nat) (n : Int) : Option Nat :=
  if n ≤ 0 then none else some (r % n.toNat)

/-- The struct `Writer` of `writer.go`, over a type `κ` of clients. -/
structure Writer (κ : Type) where
  connects : List κ

/-- The method `Writer.executeOne` of `writer.go`, with the draw `r` of the random
generator. The result comes with the list of clients `fn` was called on. -/
def Writer.executeOne {κ : Type} (w : Writer κ) (r : Nat) (fn : κ → Res Unit) :
    Res Unit × List κ :=
  match Intn r ((w.connects.length : Int) - 1) with
  | none => (.panicked, [])
  | some i =>
    match w.connects[i]? with
    | none => (.panicked, [])
    | some client => (fn client, [client])

/-! ## A small concrete store, for evaluating the code on explicit inputs -/

/-- A store for the examples: the next free cluster id and the cluster of each
clustered address. -/
structure DemoStore where
  nextId : Nat
  members : List (String × Nat)
  deriving DecidableEq, Repr

/-- A database over `DemoStore`. Transfers are numbered and the detector returns the
transfers 0 and 1; every transfer but the unknown transfer 7 was funded by the
transaction from `"S"` to `"D"`. The expansion queries answer `senders` and
`deposits`. `CreateCluster` hands out the next free id. `UpdateClusterByAddress`
fails with a storage error when `updateFails` is set, and otherwise assigns the
addresses to the cluster. -/
def demoDb (senders deposits : List String) (updateFails : Bool) :
    Database DemoStore Nat Unit Unit where
  GetTxsToExchange := fun _ _ => .ok ()
  GetExchangeTransfer := fun _ _ _ _ => .ok [0, 1]
  GetTransferTxs := fun _ n =>
    if n = 7 then .error (.base "no such transfer")
    else .ok ({ FromAddress := "S", ToAddress := "D" }, { FromAddress := "D", ToAddress := "E" })
  GetSenderAndReceiver := fun s a b =>
    .ok ({ Address := a, Cluster := s.members.lookup a },
         { Address := b, Cluster := s.members.lookup b })
  GetDepositSenders := fun _ _ _ => .ok senders
  GetDepositsByAddresses := fun _ _ _ => .ok deposits
  CreateCluster := fun s => (.ok s.nextId, { s with nextId := s.nextId + 1 })
  UpdateClusterByAddress := fun s id addrs =>
    if updateFails then (.error (.base "storage fault"), s)
    else (.ok (), { s with members := addrs.map (fun a => (a, id)) ++ s.members })

/-- An `UpdateCluster` for the examples. It follows the decision table of the
resolver, as the disabled `findRelations` of `deposit_reuse.go` spells it: which handler runs for which cluster memberships. The
merge of two different clusters is left out (it leaves the store as it is). -/
def demoUpdateCluster (db : Database DemoStore Nat Unit Unit) (sender deposit : Account)
    (includeDeposit includeSender create : Handler DemoStore Nat Unit Unit)
    (w : World DemoStore Nat) : Res Unit × World DemoStore Nat :=
  match sender.Cluster, deposit.Cluster with
  | some _, none => includeDeposit db sender deposit w
  | none, some _ => includeSender db sender deposit w
  | some _, some _ => (.ok (), w)
  | none, none => create db sender deposit w

/-- The container that resolves `demoDb`. -/
def demoContainer (senders deposits : List String) (updateFails : Bool) :
    Container DemoStore Nat Unit Unit :=
  .ok { db := demoDb senders deposits updateFails,
        UpdateCluster := demoUpdateCluster (demoDb senders deposits updateFails) }

/-- The empty store with an empty call log. -/
def demoWorld : World DemoStore Nat :=
  { store := { nextId := 0, members := [] }, calls := [] }

/-- The `%v` rendering of a numbered transfer. -/
def demoRender (n : Nat) : String := toString n

/-- The variables and effects a `Step` carries. -/
def Step.state {β : Type} : Step β → Poll β
  | .returned s => s
  | .running s => s

/-- A chain node for the examples: the last block is `last`, a downloaded batch is
the pair of the bounds it was asked for, and saving succeeds. -/
def demoEnv (last : Nat) : Env (Nat × Nat) where
  ctxDone := false
  GetLastBlock := .ok (last, none)
  DownloadData := fun f t => .ok (f, t)
  Save := fun _ => none

/-- The variables of `collectData` at its start, for the examples: the cursor at
`fromBlock` and a channel of capacity 1 holding `buf`. -/
def demoPoll (fromBlock : Nat) (buf : List (Nat × Nat)) : Poll (Nat × Nat) :=
  { fromBlock := fromBlock, ethLastBlock := 0, notifyChan := { buf := buf, cap := 1 },
    events := [] }

/-! ## Theorems: the cluster handlers -/

section HandlerTheorems

variable {σ τ X Y : Type}

/-- C1, as the claim states it, fails: with the expansion query `GetDepositSenders`
answering the empty list and every store call succeeding, `createCluster` returns nil
after that one query; it allocates no cluster id and issues no update, and the store
is as before. -/
theorem createCluster_empty_senders_ignored :
    (createCluster (demoDb [] [] false) ⟨"S", none⟩ ⟨"D", none⟩ demoWorld).1 = .ok () ∧
    (createCluster (demoDb [] [] false) ⟨"S", none⟩ ⟨"D", none⟩ demoWorld).2.calls
      = [.GetDepositSenders "D" "S"] ∧
    (createCluster (demoDb [] [] false) ⟨"S", none⟩ ⟨"D", none⟩ demoWorld).2.store
      = demoWorld.store := by
  refine ⟨rfl, rfl, rfl⟩

/-- C1, amended: when `GetDepositSenders` answers a non-empty list and every later
store call succeeds, `createCluster` allocates a new cluster id with `CreateCluster`
and calls `UpdateClusterByAddress` under that id with a list that contains the sender
address and the deposit address, and returns nil. When `GetDepositSenders` answers
the empty list, `createCluster` returns nil after that query, with no cluster
allocated and no update issued. -/
theorem createCluster_create (db : Database σ τ X Y) (sender deposit : Account)
    (w : World σ τ) (senders : List String)
    (h1 : db.GetDepositSenders w.store deposit.Address sender.Address = .ok senders) :
    (senders = [] →
      createCluster db sender deposit w
        = (.ok (), w.record (.GetDepositSenders deposit.Address sender.Address))) ∧
    (senders ≠ [] → ∀ (deposits : List String) (id : Nat) (s3 s4 : σ),
      db.GetDepositsByAddresses w.store senders deposit.Address = .ok deposits →
      db.CreateCluster w.store = (.ok id, s3) →
      db.UpdateClusterByAddress s3 id ([sender.Address, deposit.Address] ++ deposits ++ senders)
        = (.ok (), s4) →
      ∃ addrs : List String,
        sender.Address ∈ addrs ∧ deposit.Address ∈ addrs ∧
        createCluster db sender deposit w
          = (.ok (),
              { store := s4,
                calls := w.calls ++
                  [.GetDepositSenders deposit.Address sender.Address,
                   .GetDepositsByAddresses senders deposit.Address,
                   .CreateCluster,
                   .UpdateClusterByAddress id addrs] })) := by
  constructor
  · intro hs
    subst hs
    simp [createCluster, h1]
  · intro hne deposits id s3 s4 h2 h3 h4
    refine ⟨[sender.Address, deposit.Address] ++ deposits ++ senders, by simp, by simp, ?_⟩
    have hlen : senders.length ≠ 0 := by
      intro h0
      exact hne (List.length_eq_zero.mp h0)
    simp only [createCluster, h1, h2, h3, h4, hlen, if_false, World.record, Res.ofExcept]
    simp

/-- The amended C1 at a concrete input: one known co-sender `"S2"` of deposit `"D"`. -/
theorem createCluster_create_witness :
    ∃ addrs : List String, "S" ∈ addrs ∧ "D" ∈ addrs ∧
      createCluster (demoDb ["S2"] [] false) ⟨"S", none⟩ ⟨"D", none⟩ demoWorld
        = (.ok (),
            { store := { nextId := 1, members := [("S", 0), ("D", 0), ("S2", 0)] },
              calls := [.GetDepositSenders "D" "S", .GetDepositsByAddresses ["S2"] "D",
                .CreateCluster, .UpdateClusterByAddress 0 addrs] }) :=
  (createCluster_create (demoDb ["S2"] [] false) ⟨"S", none⟩ ⟨"D", none⟩ demoWorld ["S2"]
    rfl).2 (by decide) [] 0 { nextId := 1, members := [] }
    { nextId := 1, members := [("S", 0), ("D", 0), ("S2", 0)] } rfl rfl rfl

/-- C2: when `GetDepositSenders(D, S)` answers a non-empty list `senders`,
`GetDepositsByAddresses(senders, D)` answers `deposits` and `CreateCluster` hands out
`id`, then `createCluster` issues exactly these store calls, in this order, and its
last call is `UpdateClusterByAddress` under `id` with the list
`[S, D] ++ deposits ++ senders`; the result and the store are the ones this call
leaves. An address is in that list exactly if it is `S`, `D`, a co-deposit or a
co-sender. -/
theorem createCluster_widening (db : Database σ τ X Y) (sender deposit : Account)
    (w : World σ τ) (senders deposits : List String) (id : Nat) (s3 : σ)
    (h1 : db.GetDepositSenders w.store deposit.Address sender.Address = .ok senders)
    (hne : senders ≠ [])
    (h2 : db.GetDepositsByAddresses w.store senders deposit.Address = .ok deposits)
    (h3 : db.CreateCluster w.store = (.ok id, s3)) :
    createCluster db sender deposit w
      = (Res.ofExcept (db.UpdateClusterByAddress s3 id
            ([sender.Address, deposit.Address] ++ deposits ++ senders)).1,
          { store := (db.UpdateClusterByAddress s3 id
              ([sender.Address, deposit.Address] ++ deposits ++ senders)).2,
            calls := w.calls ++
              [.GetDepositSenders deposit.Address sender.Address,
               .GetDepositsByAddresses senders deposit.Address,
               .CreateCluster,
               .UpdateClusterByAddress id
                 ([sender.Address, deposit.Address] ++ deposits ++ senders)] }) ∧
    (∀ a : String, a ∈ [sender.Address, deposit.Address] ++ deposits ++ senders ↔
      (a = sender.Address ∨ a = deposit.Address ∨ a ∈ deposits ∨ a ∈ senders)) := by
  have hlen : senders.length ≠ 0 := by
    intro h0
    exact hne (List.length_eq_zero.mp h0)
  constructor
  · simp only [createCluster, h1, h2, h3, hlen, if_false, World.record]
    simp
  · intro a
    simp [or_assoc]

/-- C2 at a concrete input: prior data shows the senders `"S"` and `"S2"` of deposit
`"D"`, and `"D2"` as another deposit of theirs. -/
theorem createCluster_widening_witness :
    createCluster (demoDb ["S", "S2"] ["D2"] false) ⟨"S", none⟩ ⟨"D", none⟩ demoWorld
      = (.ok (),
          { store := { nextId := 1,
                       members := [("S", 0), ("D", 0), ("D2", 0), ("S", 0), ("S2", 0)] },
            calls := [.GetDepositSenders "D" "S", .GetDepositsByAddresses ["S", "S2"] "D",
              .CreateCluster, .UpdateClusterByAddress 0 ["S", "D", "D2", "S", "S2"]] }) :=
  (createCluster_widening (demoDb ["S", "S2"] ["D2"] false) ⟨"S", none⟩ ⟨"D", none⟩
    demoWorld ["S", "S2"] ["D2"] 0 { nextId := 1, members := [] } rfl (by decide) rfl rfl).1

/-- C3: `includeDepositToCluster`, for a sender in cluster `x`, queries
`GetDepositSenders(deposit, sender)` and then calls
`UpdateClusterByAddress(x, senders ++ [deposit.Address])`; `includeSenderToCluster`,
for a deposit in cluster `y`, queries `GetDepositsByAddresses([sender], deposit)` and
then calls `UpdateClusterByAddress(y, deposits ++ [sender.Address])`. These are all
the store calls of the handler, so no cluster id is created. If the expansion query
fails, its error is returned and the query is the only store call. -/
theorem include_widening (db : Database σ τ X Y) (sender deposit : Account)
    (w : World σ τ) :
    (∀ (x : Nat) (senders : List String), sender.Cluster = some x →
      db.GetDepositSenders w.store deposit.Address sender.Address = .ok senders →
      includeDepositToCluster db sender deposit w
        = (Res.ofExcept
              (db.UpdateClusterByAddress w.store x (senders ++ [deposit.Address])).1,
            { store := (db.UpdateClusterByAddress w.store x (senders ++ [deposit.Address])).2,
              calls := w.calls ++
                [.GetDepositSenders deposit.Address sender.Address,
                 .UpdateClusterByAddress x (senders ++ [deposit.Address])] })) ∧
    (∀ e : Error,
      db.GetDepositSenders w.store deposit.Address sender.Address = .error e →
      includeDepositToCluster db sender deposit w
        = (.err e,
            { store := w.store,
              calls := w.calls ++ [.GetDepositSenders deposit.Address sender.Address] })) ∧
    (∀ (y : Nat) (deposits : List String), deposit.Cluster = some y →
      db.GetDepositsByAddresses w.store [sender.Address] deposit.Address = .ok deposits →
      includeSenderToCluster db sender deposit w
        = (Res.ofExcept
              (db.UpdateClusterByAddress w.store y (deposits ++ [sender.Address])).1,
            { store := (db.UpdateClusterByAddress w.store y (deposits ++ [sender.Address])).2,
              calls := w.calls ++
                [.GetDepositsByAddresses [sender.Address] deposit.Address,
                 .UpdateClusterByAddress y (deposits ++ [sender.Address])] })) ∧
    (∀ e : Error,
      db.GetDepositsByAddresses w.store [sender.Address] deposit.Address = .error e →
      includeSenderToCluster db sender deposit w
        = (.err e,
            { store := w.store,
              calls := w.calls ++
                [.GetDepositsByAddresses [sender.Address] deposit.Address] })) := by
  refine ⟨?_, ?_, ?_, ?_⟩
  · intro x senders hx h
    simp [includeDepositToCluster, h, hx, World.record]
  · intro e h
    simp [includeDepositToCluster, h, World.record]
  · intro y deposits hy h
    simp [includeSenderToCluster, h, hy, World.record]
  · intro e h
    simp [includeSenderToCluster, h, World.record]

/-- C3 at a concrete input: sender `"S"` in cluster 4, deposit `"D"` not clustered,
the known co-senders of `"D"` are `"S"` and `"S3"`. -/
theorem include_widening_witness :
    includeDepositToCluster (demoDb ["S", "S3"] ["D2"] false) ⟨"S", some 4⟩ ⟨"D", none⟩
        demoWorld
      = (.ok (),
          { store := { nextId := 0, members := [("S", 4), ("S3", 4), ("D", 4)] },
            calls := [.GetDepositSenders "D" "S",
              .UpdateClusterByAddress 4 ["S", "S3", "D"]] }) :=
  (include_widening (demoDb ["S", "S3"] ["D2"] false) ⟨"S", some 4⟩ ⟨"D", none⟩
    demoWorld).1 4 ["S", "S3"] rfl rfl

end HandlerTheorems

/-! ## Theorems: `clustering` and `Run` -/

section RunTheorems

variable {σ τ X Y : Type}

/-- C5: if `GetTransferTxs` fails, or `GetTransferTxs` succeeds and
`GetSenderAndReceiver` fails, then `clustering` returns a non-nil error that wraps
the lookup error, with the rendering of the transfer in its text; the store calls of
`clustering` are the lookups only (`UpdateCluster` is not among them), and the store
is the one `clustering` started from. -/
theorem clustering_lookup_failure (p : Provided σ τ X Y) (render : τ → String)
    (transfer : τ) (w : World σ τ) (e : Error) :
    (p.db.GetTransferTxs w.store transfer = .error e →
      clustering (.ok p) render transfer w
        = (.err (.wrap ("can't get sender and deposit accounts " ++ render transfer
                    ++ ": " ++ e.text) e),
            { store := w.store, calls := w.calls ++ [.GetTransferTxs transfer] })) ∧
    (∀ txToDeposit txToExchange : Transaction,
      p.db.GetTransferTxs w.store transfer = .ok (txToDeposit, txToExchange) →
      p.db.GetSenderAndReceiver w.store txToDeposit.FromAddress txToDeposit.ToAddress
        = .error e →
      clustering (.ok p) render transfer w
        = (.err (.wrap ("can't get sender and deposit accounts " ++ render transfer
                    ++ ": " ++ e.text) e),
            { store := w.store,
              calls := w.calls ++
                [.GetTransferTxs transfer,
                 .GetSenderAndReceiver txToDeposit.FromAddress txToDeposit.ToAddress] })) ∧
    Error.Unwrap (.wrap ("can't get sender and deposit accounts " ++ render transfer
      ++ ": " ++ e.text) e) = some e := by
  refine ⟨?_, ?_, rfl⟩
  · intro h
    simp [clustering, Invoke, getSenderAndDeposit, h, World.record, Errorf,
      String.append_assoc]
  · intro txD txE h1 h2
    simp [clustering, Invoke, getSenderAndDeposit, h1, h2, World.record, Errorf,
      Res.ofExcept, String.append_assoc]

/-- C5 at a concrete input: transfer 7 is unknown to the store. -/
theorem clustering_lookup_failure_witness :
    clustering (demoContainer ["S2"] [] false) demoRender 7 demoWorld
      = (.err (.wrap ("can't get sender and deposit accounts " ++ demoRender 7
                  ++ ": " ++ "no such transfer") (.base "no such transfer")),
          { store := demoWorld.store, calls := demoWorld.calls ++ [.GetTransferTxs 7] }) :=
  (clustering_lookup_failure
    { db := demoDb ["S2"] [] false,
      UpdateCluster := demoUpdateCluster (demoDb ["S2"] [] false) }
    demoRender 7 demoWorld (.base "no such transfer")).1 rfl

end RunTheorems

/-! ## Theorems: the polling loop of `collectData` -/

section PollTheorems

variable {β : Type}

/-- The download calls of two effect lists in a row. -/
theorem downloads_append (es fs : List (Event β)) :
    downloads (es ++ fs) = downloads es ++ downloads fs := by
  induction es with
  | nil => rfl
  | cons e es ih => cases e <;> simp [downloads, ih]

/-- An iteration that reaches the send with a channel that has room: the batch goes
to the tail of the channel and the cursor moves by `batchBlocksSize`. -/
theorem cycle_enqueue (env : Env β) (s : Poll β) (last : Nat) (blocks : β)
    (hctx : env.ctxDone = false) (hlast : env.GetLastBlock = .ok (last, none))
    (hguard : ¬ uint64Sub last s.fromBlock < batchBlocksSize)
    (hdl : env.DownloadData s.fromBlock last = .ok blocks)
    (hsave : env.Save blocks = none) (hroom : s.notifyChan.full = false) :
    cycle env s = .running
      { fromBlock := uint64Add s.fromBlock batchBlocksSize
        ethLastBlock := last
        notifyChan := { buf := s.notifyChan.buf ++ [blocks], cap := s.notifyChan.cap }
        events := s.events ++
          [.GetLastBlock, .DownloadData s.fromBlock last, .Save blocks, .Send blocks] } := by
  simp [cycle, hctx, hlast, Poll.emit, hguard, hdl, hsave, hroom]

/-- An iteration that reaches the send with a full channel: the batch is not sent,
an error is logged, the cursor stays and the loop goes on. -/
theorem cycle_drop (env : Env β) (s : Poll β) (last : Nat) (blocks : β)
    (hctx : env.ctxDone = false) (hlast : env.GetLastBlock = .ok (last, none))
    (hguard : ¬ uint64Sub last s.fromBlock < batchBlocksSize)
    (hdl : env.DownloadData s.fromBlock last = .ok blocks)
    (hsave : env.Save blocks = none) (hfull : s.notifyChan.full = true) :
    cycle env s = .running
      { fromBlock := s.fromBlock
        ethLastBlock := last
        notifyChan := s.notifyChan
        events := s.events ++
          [.GetLastBlock, .DownloadData s.fromBlock last, .Save blocks,
           .LogError "can't send newBlocks to clustering"] } := by
  simp [cycle, hctx, hlast, Poll.emit, hguard, hdl, hsave, hfull]

/-- C6: an iteration of `collectData` that reaches the send (the context is live,
the last block is known, the size guard passes, download and save succeed) with a
full channel ends at once with the loop still running, the channel as it was and the
batch nowhere but in the log of the error; with room in the channel, the batch is
appended at the tail of the channel. -/
theorem collectData_backpressure (env : Env β) (s : Poll β) (last : Nat) (blocks : β)
    (hctx : env.ctxDone = false) (hlast : env.GetLastBlock = .ok (last, none))
    (hguard : ¬ uint64Sub last s.fromBlock < batchBlocksSize)
    (hdl : env.DownloadData s.fromBlock last = .ok blocks)
    (hsave : env.Save blocks = none) :
    (s.notifyChan.full = true →
      ∃ s1 : Poll β, cycle env s = .running s1 ∧ s1.notifyChan = s.notifyChan ∧
        s1.events = s.events ++
          [.GetLastBlock, .DownloadData s.fromBlock last, .Save blocks,
           .LogError "can't send newBlocks to clustering"]) ∧
    (s.notifyChan.full = false →
      ∃ s1 : Poll β, cycle env s = .running s1 ∧
        s1.notifyChan.buf = s.notifyChan.buf ++ [blocks] ∧
        s1.notifyChan.cap = s.notifyChan.cap) := by
  constructor
  · intro hfull
    exact ⟨_, cycle_drop env s last blocks hctx hlast hguard hdl hsave hfull, rfl, rfl⟩
  · intro hroom
    exact ⟨_, cycle_enqueue env s last blocks hctx hlast hguard hdl hsave hroom, rfl, rfl⟩

/-- C6 at a concrete input: the cursor at block 100, the node at block 110, and a
channel of capacity 1 that holds one batch. -/
theorem collectData_backpressure_witness :
    ∃ s1 : Poll (Nat × Nat), cycle (demoEnv 110) (demoPoll 100 [(90, 100)]) = .running s1 ∧
      s1.notifyChan = (demoPoll 100 [(90, 100)]).notifyChan ∧
      s1.events = (demoPoll 100 [(90, 100)]).events ++
        [.GetLastBlock, .DownloadData 100 110, .Save (100, 110),
         .LogError "can't send newBlocks to clustering"] :=
  (collectData_backpressure (demoEnv 110) (demoPoll 100 [(90, 100)]) 110 (100, 110) rfl rfl
    (by decide) rfl rfl).1 rfl

/-- C7, as the claim states it, fails: the cursor is at block 100 and the channel
(capacity 1) is full. The first iteration, with the node at block 110, downloads
`(100, 110)` and drops the batch; the cursor is still at 100. The consumer then
takes one batch off the channel, and the second iteration, with the node at block
120, downloads from block 100 again and puts the batch `(100, 120)`, which covers
the dropped blocks, on the channel. -/
theorem dropped_batch_fetched_again :
    (cycle (demoEnv 110) (demoPoll 100 [(90, 100)])).state.fromBlock = 100 ∧
    (cycle (demoEnv 110) (demoPoll 100 [(90, 100)])).state.notifyChan.buf = [(90, 100)] ∧
    downloads (cycle (demoEnv 110) (demoPoll 100 [(90, 100)])).state.events
      = [(100, 110)] ∧
    downloads (collectData [(0, demoEnv 110), (1, demoEnv 120)]
        (demoPoll 100 [(90, 100)])).state.events
      = [(100, 110), (100, 120)] ∧
    (collectData [(0, demoEnv 110), (1, demoEnv 120)]
        (demoPoll 100 [(90, 100)])).state.notifyChan.buf
      = [(100, 120)] := by
  refine ⟨?_, ?_, ?_, ?_, ?_⟩ <;> decide

/-- An iteration that passes the size guard calls `DownloadData` with the cursor and
the last block, however it ends. -/
theorem cycle_downloads (env : Env β) (s : Poll β) (last : Nat)
    (hctx : env.ctxDone = false) (hlast : env.GetLastBlock = .ok (last, none))
    (hguard : ¬ uint64Sub last s.fromBlock < batchBlocksSize) :
    downloads (cycle env s).state.events = downloads s.events ++ [(s.fromBlock, last)] := by
  cases hdl : env.DownloadData s.fromBlock last with
  | error err =>
    simp [cycle, hctx, hlast, Poll.emit, hguard, hdl, Step.state, downloads_append, downloads]
  | ok blocks =>
    cases hsave : env.Save blocks with
    | some err =>
      simp [cycle, hctx, hlast, Poll.emit, hguard, hdl, hsave, Step.state, downloads_append,
        downloads]
    | none =>
      by_cases hfull : s.notifyChan.full = true
      · simp [cycle, hctx, hlast, Poll.emit, hguard, hdl, hsave, hfull, Step.state,
          downloads_append, downloads]
      · simp [cycle, hctx, hlast, Poll.emit, hguard, hdl, hsave, hfull, Step.state,
          downloads_append, downloads]

/-- C7, amended: a batch dropped on a full channel is not put on the channel, and the
cursor `fromBlock` stays where it was. So the next iteration that passes the size
guard, after the consumer took `n` batches off the channel, calls `DownloadData`
from the same `fromBlock` again; if that download and its save succeed and the
channel has room by then, the new batch, which starts at the same block as the
dropped one, is put on the channel. -/
theorem dropped_batch_cursor_stays (env env2 : Env β) (s : Poll β) (last last2 n : Nat)
    (blocks : β)
    (hctx : env.ctxDone = false) (hlast : env.GetLastBlock = .ok (last, none))
    (hguard : ¬ uint64Sub last s.fromBlock < batchBlocksSize)
    (hdl : env.DownloadData s.fromBlock last = .ok blocks)
    (hsave : env.Save blocks = none) (hfull : s.notifyChan.full = true)
    (hctx2 : env2.ctxDone = false) (hlast2 : env2.GetLastBlock = .ok (last2, none))
    (hguard2 : ¬ uint64Sub last2 s.fromBlock < batchBlocksSize) :
    ∃ s1 : Poll β, cycle env s = .running s1 ∧ s1.fromBlock = s.fromBlock ∧
      s1.notifyChan = s.notifyChan ∧
      downloads (cycle env2 { s1 with notifyChan := Chan.recv^[n] s1.notifyChan }).state.events
        = downloads s.events ++ [(s.fromBlock, last), (s.fromBlock, last2)] ∧
      (∀ blocks2 : β, env2.DownloadData s.fromBlock last2 = .ok blocks2 →
        env2.Save blocks2 = none → (Chan.recv^[n] s.notifyChan).full = false →
        (cycle env2 { s1 with notifyChan := Chan.recv^[n] s1.notifyChan }).state.notifyChan.buf
          = (Chan.recv^[n] s.notifyChan).buf ++ [blocks2]) := by
  refine ⟨_, cycle_drop env s last blocks hctx hlast hguard hdl hsave hfull, rfl, rfl, ?_, ?_⟩
  · have h := cycle_downloads env2
      { fromBlock := s.fromBlock, ethLastBlock := last,
        notifyChan := Chan.recv^[n] s.notifyChan,
        events := s.events ++
          [.GetLastBlock, .DownloadData s.fromBlock last, .Save blocks,
           .LogError "can't send newBlocks to clustering"] }
      last2 hctx2 hlast2 hguard2
    simpa [downloads_append, downloads] using h
  · intro blocks2 hdl2 hsave2 hroom
    have h := cycle_enqueue env2
      { fromBlock := s.fromBlock, ethLastBlock := last,
        notifyChan := Chan.recv^[n] s.notifyChan,
        events := s.events ++
          [.GetLastBlock, .DownloadData s.fromBlock last, .Save blocks,
           .LogError "can't send newBlocks to clustering"] }
      last2 blocks2 hctx2 hlast2 hguard2 hdl2 hsave2 hroom
    simp only at h ⊢
    rw [h]
    rfl

/-- The amended C7 at a concrete input: cursor at block 100, full channel of capacity
1, the node at block 110 and then at block 120, one receive in between. -/
theorem dropped_batch_cursor_stays_witness :
    ∃ s1 : Poll (Nat × Nat),
      cycle (demoEnv 110) (demoPoll 100 [(90, 100)]) = .running s1 ∧
      s1.fromBlock = 100 ∧ s1.notifyChan = { buf := [(90, 100)], cap := 1 } ∧
      downloads (cycle (demoEnv 120)
          { s1 with notifyChan := Chan.recv^[1] s1.notifyChan }).state.events
        = downloads (demoPoll 100 [(90, 100)]).events ++ [(100, 110), (100, 120)] ∧
      (∀ blocks2 : Nat × Nat, (demoEnv 120).DownloadData 100 120 = .ok blocks2 →
        (demoEnv 120).Save blocks2 = none →
        (Chan.recv^[1] (demoPoll 100 [(90, 100)]).notifyChan).full = false →
        (cycle (demoEnv 120)
            { s1 with notifyChan := Chan.recv^[1] s1.notifyChan }).state.notifyChan.buf
          = (Chan.recv^[1] (demoPoll 100 [(90, 100)]).notifyChan).buf ++ [blocks2]) :=
  dropped_batch_cursor_stays (demoEnv 110) (demoEnv 120) (demoPoll 100 [(90, 100)])
    110 120 1 (100, 110) rfl rfl (by decide) rfl rfl rfl rfl rfl (by decide)

/-- C8, the code at the failing input: the cursor is at block 100 and the node
reports block 50 as its last block. No new block is available (`50 < 100 + 10`), but
the `uint64` difference `50 - 100` wraps to `2 ^ 64 - 50`, the guard passes, and the
iteration downloads the range `(100, 50)`, saves it and puts it on the channel. -/
theorem guard_wraps_around :
    uint64Sub 50 100 = 2 ^ 64 - 50 ∧ ¬ (100 + batchBlocksSize ≤ 50) ∧
    downloads (cycle (demoEnv 50) (demoPoll 100 [])).state.events = [(100, 50)] ∧
    (cycle (demoEnv 50) (demoPoll 100 [])).state.notifyChan.buf = [(100, 50)] := by
  refine ⟨?_, ?_, ?_, ?_⟩ <;> decide

/-- C9: an iteration of `collectData` that puts its batch on the channel moves
`fromBlock` by exactly `batchBlocksSize` modulo `2 ^ 64`, whatever the last block
is, while its download covered `(fromBlock, ethLastBlock)`. Every iteration after
which the loop goes on either did so, or left `fromBlock` and the channel as they
were. So when the last block is more than 10 past the cursor, the next download of
an iteration that starts from the new cursor begins 10 blocks after the old cursor,
strictly before the end of the range downloaded before. -/
theorem collectData_cursor_step (env : Env β) (s : Poll β) :
    (∀ (last : Nat) (blocks : β), env.ctxDone = false →
      env.GetLastBlock = .ok (last, none) →
      ¬ uint64Sub last s.fromBlock < batchBlocksSize →
      env.DownloadData s.fromBlock last = .ok blocks → env.Save blocks = none →
      s.notifyChan.full = false →
      ∃ s1 : Poll β, cycle env s = .running s1 ∧
        s1.fromBlock = (s.fromBlock + 10) % 2 ^ 64 ∧
        s1.notifyChan.buf = s.notifyChan.buf ++ [blocks] ∧
        downloads s1.events = downloads s.events ++ [(s.fromBlock, last)] ∧
        (s.fromBlock < 2 ^ 64 → last < 2 ^ 64 → 10 < uint64Sub last s.fromBlock →
          ∀ (env2 : Env β) (s2 : Poll β) (last2 : Nat), s2.fromBlock = s1.fromBlock →
            env2.ctxDone = false → env2.GetLastBlock = .ok (last2, none) →
            ¬ uint64Sub last2 s2.fromBlock < batchBlocksSize →
            downloads (cycle env2 s2).state.events
              = downloads s2.events ++ [(s1.fromBlock, last2)] ∧
            uint64Sub s1.fromBlock s.fromBlock = 10 ∧
            (s.fromBlock ≤ last →
              s1.fromBlock = s.fromBlock + 10 ∧ s.fromBlock < s1.fromBlock ∧
              s1.fromBlock < last))) ∧
    (∀ s1 : Poll β, cycle env s = .running s1 →
      (s1.fromBlock = s.fromBlock ∧ s1.notifyChan = s.notifyChan) ∨
      (∃ blocks : β, s1.notifyChan.buf = s.notifyChan.buf ++ [blocks] ∧
        s1.fromBlock = (s.fromBlock + 10) % 2 ^ 64)) := by
  constructor
  · intro last blocks hctx hlast hguard hdl hsave hroom
    refine ⟨_, cycle_enqueue env s last blocks hctx hlast hguard hdl hsave hroom, rfl, rfl,
      ?_, ?_⟩
    · simp [downloads_append, downloads]
    · intro hf hl hgt env2 s2 last2 hs2 hctx2 hlast2 hguard2
      refine ⟨?_, ?_, ?_⟩
      · rw [cycle_downloads env2 s2 last2 hctx2 hlast2 hguard2, hs2]
      · simp only [uint64Sub, uint64Add, uint64Size, batchBlocksSize] at *
        omega
      · intro hle
        simp only [uint64Sub, uint64Add, uint64Size, batchBlocksSize] at *
        omega
  · intro s1 h
    simp only [cycle] at h
    split at h
    · simp at h
    · split at h
      · simp at h
      · simp at h
      · split at h
        · simp only [Step.running.injEq] at h
          subst h
          left
          exact ⟨rfl, rfl⟩
        · split at h
          · simp at h
          · split at h
            · simp at h
            · split at h
              · simp only [Step.running.injEq] at h
                subst h
                left
                exact ⟨rfl, rfl⟩
              · simp only [Step.running.injEq] at h
                subst h
                right
                exact ⟨_, rfl, rfl⟩

/-- C9 at a concrete input: cursor at block 100, the node at block 115 and an empty
channel; the batch `(100, 115)` is sent and the cursor moves to 110. -/
theorem collectData_cursor_step_witness :
    ∃ s1 : Poll (Nat × Nat), cycle (demoEnv 115) (demoPoll 100 []) = .running s1 ∧
      s1.fromBlock = (100 + 10) % 2 ^ 64 ∧
      s1.notifyChan.buf = (demoPoll 100 []).notifyChan.buf ++ [(100, 115)] ∧
      downloads s1.events = downloads (demoPoll 100 []).events ++ [(100, 115)] ∧
      ((100 : Nat) < 2 ^ 64 → (115 : Nat) < 2 ^ 64 → 10 < uint64Sub 115 100 →
        ∀ (env2 : Env (Nat × Nat)) (s2 : Poll (Nat × Nat)) (last2 : Nat),
          s2.fromBlock = s1.fromBlock →
          env2.ctxDone = false → env2.GetLastBlock = .ok (last2, none) →
          ¬ uint64Sub last2 s2.fromBlock < batchBlocksSize →
          downloads (cycle env2 s2).state.events
            = downloads s2.events ++ [(s1.fromBlock, last2)] ∧
          uint64Sub s1.fromBlock 100 = 10 ∧
          (100 ≤ 115 →
            s1.fromBlock = 100 + 10 ∧ 100 < s1.fromBlock ∧ s1.fromBlock < 115)) :=
  (collectData_cursor_step (demoEnv 115) (demoPoll 100 [])).1 115 (100, 115) rfl rfl (by decide)
    rfl rfl rfl

end PollTheorems

/-! ## Theorems: `Writer.executeOne` -/

/-- C10, the code at the failing input: for a writer with exactly one connection the
bound passed to `rand.Intn` is `1 - 1 = 0`, so `rand.Intn` panics, whatever the
generator draws, and `fn` is not called. -/
theorem executeOne_single_connection_panics {κ : Type} (client : κ) (r : Nat)
    (fn : κ → Res Unit) :
    ((({ connects := [client] } : Writer κ).connects.length : Int) - 1 = 0) ∧
    Intn r 0 = none ∧
    Writer.executeOne { connects := [client] } r fn = (.panicked, []) := by
  refine ⟨by simp, by simp [Intn], by simp [Writer.executeOne, Intn]⟩

end ImgService
